import Mathlib

/-!
# Verification of the `stacker_blueprints` Firehose blueprint

A shallow embedding of `stacker_blueprints/firehose.py` and proofs about its
policy/resource composition logic.

The embedding models:
* CloudFormation intrinsic values (`Ref`, `GetAtt`, `Join`, string literals);
* IAM policy documents (statements with sid, effect, principal, actions,
  resources, condition), mirroring the `awacs` objects built by the source;
* the troposphere template as an insertion-ordered list of resources and
  outputs;
* the blueprint variable dictionary as a `Config` record, threaded through
  the `create_*` methods as explicit state (the source mutates
  `variables["KeyUseArns"]` in place; the threaded `Config` carries that
  mutation).
-/

namespace Firehose

/-- CloudFormation intrinsic value model: literal strings, `Ref`,
`GetAtt(logical, attr)` and `Join(delimiter, parts)`. -/
inductive Val where
  | str : String → Val
  | ref : String → Val
  | getAtt : String → String → Val
  | join : String → List Val → Val

/-- An IAM action, `awacs.aws.Action(service, action_name)`. -/
structure ActionName where
  service : String
  act : String
deriving DecidableEq, Repr

/-- Statement effect. -/
inductive Effect where
  | Allow
  | Deny
deriving DecidableEq, Repr

/-- Statement principal: `AWSPrincipal` with a single ARN value, an
`AWSPrincipal` carrying a list of ARNs, or a service principal holding a
list of service names. -/
inductive PrincipalSpec where
  | aws : Val → PrincipalSpec
  | awsList : List Val → PrincipalSpec
  | service : List String → PrincipalSpec

/-- Statement condition: `Bool(key, b)` or `StringEquals(key, value)`. -/
inductive CondSpec where
  | boolCond : String → Bool → CondSpec
  | stringEquals : String → Val → CondSpec

/-- One policy statement, as built by `awacs.aws.Statement`. -/
structure Stmt where
  sid : Option String := none
  effect : Effect
  principal : Option PrincipalSpec := none
  action : List ActionName
  resource : List Val := []
  condition : Option CondSpec := none

/-- A policy document, as built by `awacs.aws.Policy`. -/
structure PolicyDoc where
  version : Option String := none
  id : Option String := none
  statements : List Stmt

/-! ## Module-level logical-name constants (firehose.py lines 29-37) -/

def BUCKET : String := "S3Bucket"

def IAM_ROLE : String := "IAMRole"

def ROLE_POLICY : String := "RolePolicy"

def FIREHOSE_WRITE_POLICY : String := "FirehoseWriteAccess"

def LOGS_POLICY : String := "LogsPolicy"

def S3_WRITE_POLICY : String := "S3WriteAccess"

def LOGS_WRITE_POLICY : String := "LogsWriteAccess"

def KMS_KEY : String := "EncryptionKey"

def KEY_ALIAS : String := "KeyAlias"

/-! ## Policy statement library (firehose.py lines 46-112) -/

/-- Translation of `s3_arn(bucket)`: a Join of the literal ARN service
prefix with the bucket reference. -/
def s3_arn (bucket : Val) : Val :=
  Val.join "" [Val.str "arn:aws:s3:::", bucket]

/-- Translation of `logs_policy()`: allow log-stream and log-group
creation, wildcard. -/
def logs_policy : PolicyDoc :=
  { statements := [
      { effect := .Allow,
        action := [⟨"logs", "CreateLogStream"⟩, ⟨"logs", "CreateLogGroup"⟩],
        resource := [Val.str "*"] }] }

/-- Translation of `firehose_write_policy()`: delivery-stream
create/delete/describe/put
actions, wildcard. -/
def firehose_write_policy : PolicyDoc :=
  { statements := [
      { effect := .Allow,
        action := [
          ⟨"firehose", "CreateDeliveryStream"⟩,
          ⟨"firehose", "DeleteDeliveryStream"⟩,
          ⟨"firehose", "DescribeDeliveryStream"⟩,
          ⟨"firehose", "PutRecord"⟩,
          ⟨"firehose", "PutRecordBatch"⟩],
        resource := [Val.str "*"] }] }

/-- Translation of `logs_write_policy()`: allow log-event writes,
wildcard. -/
def logs_write_policy : PolicyDoc :=
  { statements := [
      { effect := .Allow,
        action := [⟨"logs", "PutLogEvents"⟩],
        resource := [Val.str "*"] }] }

/-- Translation of `s3_write_policy(bucket)`: object-store write actions
over exactly
the bucket ARN and the `bucket/*` ARN. -/
def s3_write_policy (bucket : Val) : PolicyDoc :=
  { statements := [
      { effect := .Allow,
        action := [
          ⟨"s3", "AbortMultipartUpload"⟩,
          ⟨"s3", "GetBucketLocation"⟩,
          ⟨"s3", "GetObject"⟩,
          ⟨"s3", "ListBucket"⟩,
          ⟨"s3", "ListBucketMultipartUploads"⟩,
          ⟨"s3", "PutObject"⟩],
        resource := [
          s3_arn bucket,
          s3_arn (Val.join "/" [bucket, Val.str "*"])] }] }

/-! ## Key policy synthesizer (firehose.py lines 115-194) -/

/-- Translation of the `root_arn` value built inside `kms_key_policy`:
the Join of the IAM ARN stem, the account-id reference and the literal
root suffix. -/
def root_arn : Val :=
  Val.join ":" [Val.str "arn:aws:iam:", Val.ref "AWS::AccountId", Val.str "root"]

/-- The unconditional root-account statement of the key policy. -/
def enable_iam_user_permissions_stmt : Stmt :=
  { sid := some "Enable IAM User Permissions",
    effect := .Allow,
    principal := some (.aws root_arn),
    action := [⟨"kms", "*"⟩],
    resource := [Val.str "*"] }

/-- The "Allow use of the key" statement, present when `key_use_arns` is
non-empty. -/
def allow_use_stmt (key_use_arns : List Val) : Stmt :=
  { sid := some "Allow use of the key",
    effect := .Allow,
    principal := some (.awsList key_use_arns),
    action := [
      ⟨"kms", "Encrypt"⟩,
      ⟨"kms", "Decrypt"⟩,
      ⟨"kms", "ReEncrypt"⟩,
      ⟨"kms", "GenerateDataKey"⟩,
      ⟨"kms", "GenerateDataKeyWithoutPlaintext"⟩,
      ⟨"kms", "DescribeKey"⟩],
    resource := [Val.str "*"] }

/-- The "Allow attachment of persistent resources" statement, the second
member of the use pair. -/
def allow_attachment_stmt (key_use_arns : List Val) : Stmt :=
  { sid := some "Allow attachment of persistent resources",
    effect := .Allow,
    principal := some (.awsList key_use_arns),
    action := [
      ⟨"kms", "CreateGrant"⟩,
      ⟨"kms", "ListGrants"⟩,
      ⟨"kms", "RevokeGrant"⟩],
    resource := [Val.str "*"],
    condition := some (.boolCond "kms:GrantIsForAWSResource" true) }

/-- The "Allow access for Key Administrators" statement, present when
`key_admin_arns` is non-empty. -/
def allow_admin_stmt (key_admin_arns : List Val) : Stmt :=
  { sid := some "Allow access for Key Administrators",
    effect := .Allow,
    principal := some (.awsList key_admin_arns),
    action := [
      ⟨"kms", "Create*"⟩,
      ⟨"kms", "Describe*"⟩,
      ⟨"kms", "Enable*"⟩,
      ⟨"kms", "List*"⟩,
      ⟨"kms", "Put*"⟩,
      ⟨"kms", "Update*"⟩,
      ⟨"kms", "Revoke*"⟩,
      ⟨"kms", "Disable*"⟩,
      ⟨"kms", "Get*"⟩,
      ⟨"kms", "Delete*"⟩,
      ⟨"kms", "ScheduleKeyDeletion"⟩,
      ⟨"kms", "CancelKeyDeletion"⟩],
    resource := [Val.str "*"] }

/-- Translation of `kms_key_policy(key_use_arns, key_admin_arns)`: root
statement always;
use pair appended when `key_use_arns` is truthy (non-empty); admin statement
appended when `key_admin_arns` is truthy. -/
def kms_key_policy (key_use_arns key_admin_arns : List Val) : PolicyDoc :=
  let statements := [enable_iam_user_permissions_stmt]
  let statements := if key_use_arns.isEmpty then statements else
    statements ++ [allow_use_stmt key_use_arns, allow_attachment_stmt key_use_arns]
  let statements := if key_admin_arns.isEmpty then statements else
    statements ++ [allow_admin_stmt key_admin_arns]
  { version := some "2012-10-17", id := some "key-default-1",
    statements := statements }

/-! ## Configuration model (the `VARIABLES` schema, firehose.py lines 198-248)

`KeyUseArns` / `KeyAdminArns` are held as `Val`s because the composer appends
a `GetAtt` reference to the caller string ARNs. -/

/-- Resolved blueprint variables. -/
structure Config where
  RoleNames : List String
  GroupNames : List String
  UserNames : List String
  BucketName : String
  EncryptS3Bucket : Bool
  EnableKeyRotation : Bool
  KeyUseArns : List Val
  KeyAdminArns : List Val

/-- The default configuration declared by the `VARIABLES` schema. -/
def Config.defaults : Config :=
  { RoleNames := [], GroupNames := [], UserNames := [],
    BucketName := "", EncryptS3Bucket := true, EnableKeyRotation := true,
    KeyUseArns := [], KeyAdminArns := [] }

/-- The context inputs governing auto-generated names:
`self.context.get_fqn(self.name)`. -/
structure Context where
  fqn : String

/-! ## Template model (troposphere `Template`) -/

/-- A `Roles=` / `Groups=` / `Users=` axis of an `iam.PolicyType`:
either `Ref("AWS::NoValue")` or an explicit name list. -/
inductive Axis where
  | noValue
  | names : List String → Axis

/-- An inline `iam.Policy` attached to a role. -/
structure InlinePolicy where
  logicalId : String
  policyName : String
  policyDocument : PolicyDoc

/-- A template resource; one constructor per troposphere resource class the
blueprint instantiates. -/
inductive Resource where
  | kmsKey (logicalId : String) (description : Val)
      (enabled enableKeyRotation : Bool) (keyPolicy : PolicyDoc)
  | kmsAlias (logicalId : String) (aliasName : String) (targetKeyId : Val)
  | s3Bucket (logicalId : String) (bucketName : Val)
  | iamRole (logicalId : String) (assumeRolePolicyDocument : PolicyDoc)
      (path : String) (policies : List InlinePolicy)
  | iamPolicyType (logicalId : String) (policyName : String)
      (policyDocument : PolicyDoc) (roles groups users : Axis)

/-- The troposphere template: resources and outputs in insertion order. -/
structure Template where
  resources : List Resource
  outputs : List (String × Val)

/-- Translation of `t.add_resource(r)`. -/
def Template.add_resource (t : Template) (r : Resource) : Template :=
  { t with resources := t.resources ++ [r] }

/-- Translation of `t.add_output(Output(name, Value=v))`. -/
def Template.add_output (t : Template) (name : String) (value : Val) : Template :=
  { t with outputs := t.outputs ++ [(name, value)] }

/-- The empty template each composition invocation starts from. -/
def Template.empty : Template :=
  { resources := [], outputs := [] }

/-! ## Resource composer (the `Firehose` blueprint methods) -/

/-- Translation of `create_kms_key` (firehose.py lines 250-302).  Returns
the updated
variables alongside the template: the source appends the role ARN to the
caller-owned `variables["KeyUseArns"]` list in place, so the post-state of
the configuration is observable. -/
def create_kms_key (ctx : Context) (vars : Config) (t : Template) :
    Config × Template :=
  if !vars.EncryptS3Bucket then (vars, t) else
  let key_description : Val :=
    Val.join "" [Val.str "S3 Bucket kms encryption key for stack ",
                 Val.ref "AWS::StackName"]
  let key_use_arns := vars.KeyUseArns ++ [Val.getAtt IAM_ROLE "Arn"]
  let vars := { vars with KeyUseArns := key_use_arns }
  let key_admin_arns := vars.KeyAdminArns
  let t := t.add_resource (.kmsKey KMS_KEY key_description true
    vars.EnableKeyRotation (kms_key_policy key_use_arns key_admin_arns))
  let t := t.add_resource (.kmsAlias KEY_ALIAS ("alias/" ++ ctx.fqn)
    (Val.ref KMS_KEY))
  let key_arn : Val :=
    Val.join "" [Val.str "arn:aws:kms:", Val.ref "AWS::Region", Val.str ":",
                 Val.ref "AWS::AccountId", Val.str ":key/", Val.ref KMS_KEY]
  let t := t.add_output "KmsKeyArn" key_arn
  let t := t.add_output "KmsKeyId" (Val.ref KMS_KEY)
  let t := t.add_output "KmsKeyAlias" (Val.ref KEY_ALIAS)
  (vars, t)

/-- Translation of `create_bucket` (firehose.py lines 304-316):
`vars.get("BucketName")
or Ref("AWS::NoValue")` — Python truthiness makes the empty string fall back
to the no-value sentinel. -/
def create_bucket (vars : Config) (t : Template) : Template :=
  let bucket_name : Val :=
    if vars.BucketName = "" then Val.ref "AWS::NoValue"
    else Val.str vars.BucketName
  let t := t.add_resource (.s3Bucket BUCKET bucket_name)
  t.add_output "Bucket" (Val.ref BUCKET)

/-- Translation of `generate_iam_policies` (firehose.py lines 318-330). -/
def generate_iam_policies (ctx : Context) : List InlinePolicy :=
  let s3_policy : InlinePolicy :=
    { logicalId := S3_WRITE_POLICY,
      policyName := ctx.fqn ++ "-s3-write",
      policyDocument := s3_write_policy (Val.ref BUCKET) }
  let logs_pol : InlinePolicy :=
    { logicalId := LOGS_WRITE_POLICY,
      policyName := ctx.fqn ++ "-logs-write",
      policyDocument := logs_write_policy }
  [s3_policy, logs_pol]

/-- Trust (assume-role) policy document of the access role
(firehose.py lines 335-345). -/
def firehose_role_policy : PolicyDoc :=
  { statements := [
      { effect := .Allow,
        principal := some (.service ["firehose.amazonaws.com"]),
        action := [⟨"sts", "AssumeRole"⟩],
        condition := some (.stringEquals "sts:ExternalId"
          (Val.ref "AWS::AccountId")) }] }

/-- Translation of `create_role` (firehose.py lines 332-355). -/
def create_role (ctx : Context) (t : Template) : Template :=
  let t := t.add_resource (.iamRole IAM_ROLE firehose_role_policy "/"
    (generate_iam_policies ctx))
  let t := t.add_output "Role" (Val.ref IAM_ROLE)
  t.add_output "RoleArn" (Val.getAtt IAM_ROLE "Arn")

/-- Translation of `create_policy` (firehose.py lines 357-392): each
principal category is
either the supplied non-empty list or `Ref("AWS::NoValue")`; the two
attachment policies are added only when some category is non-empty. -/
def create_policy (ctx : Context) (vars : Config) (t : Template) :
    Template :=
  let external_roles :=
    if vars.RoleNames.isEmpty then Axis.noValue
    else Axis.names vars.RoleNames
  let external_groups :=
    if vars.GroupNames.isEmpty then Axis.noValue
    else Axis.names vars.GroupNames
  let external_users :=
    if vars.UserNames.isEmpty then Axis.noValue
    else Axis.names vars.UserNames
  let create_p := !vars.RoleNames.isEmpty ||
    !vars.GroupNames.isEmpty || !vars.UserNames.isEmpty
  if create_p then
    let t := t.add_resource (.iamPolicyType FIREHOSE_WRITE_POLICY
      (ctx.fqn ++ "-firehose") firehose_write_policy
      external_roles external_groups external_users)
    t.add_resource (.iamPolicyType LOGS_POLICY
      (ctx.fqn ++ "-logs") logs_policy
      external_roles external_groups external_users)
  else t

/-- Translation of `create_template` (firehose.py lines 394-397): key →
attachment policies
→ bucket → role, starting from an empty template.  The variables state is
threaded because `create_kms_key` mutates it. -/
def create_template (ctx : Context) (vars : Config) : Config × Template :=
  let t := Template.empty
  let (vars, t) := create_kms_key ctx vars t
  let t := create_policy ctx vars t
  let t := create_bucket vars t
  let t := create_role ctx t
  (vars, t)

/-! ## Query helpers over the template -/

/-- The logical name of a resource. -/
def Resource.logicalId : Resource → String
  | .kmsKey i _ _ _ _ => i
  | .kmsAlias i _ _ => i
  | .s3Bucket i _ => i
  | .iamRole i _ _ _ => i
  | .iamPolicyType i _ _ _ _ _ => i

/-- Whether a resource is a `kms.Key`. -/
def Resource.isKmsKey : Resource → Bool
  | .kmsKey _ _ _ _ _ => true
  | _ => false

/-- Whether a resource is a `kms.Alias`. -/
def Resource.isKmsAlias : Resource → Bool
  | .kmsAlias _ _ _ => true
  | _ => false

/-- Whether a resource is an `s3.Bucket`. -/
def Resource.isBucket : Resource → Bool
  | .s3Bucket _ _ => true
  | _ => false

/-- Every policy document carried by a resource (key policy, trust policy,
inline policy documents, attachment policy document). -/
def Resource.policyDocs : Resource → List PolicyDoc
  | .kmsKey _ _ _ _ p => [p]
  | .kmsAlias _ _ _ => []
  | .s3Bucket _ _ => []
  | .iamRole _ trust _ pols => trust :: pols.map (fun ip => ip.policyDocument)
  | .iamPolicyType _ _ doc _ _ _ => [doc]

/-- Whether the template holds a resource with the given logical name. -/
def Template.hasResource (t : Template) (i : String) : Bool :=
  t.resources.any (fun r => r.logicalId == i)

/-- Whether the template registers an output with the given name. -/
def Template.hasOutput (t : Template) (n : String) : Bool :=
  t.outputs.any (fun o => o.1 == n)

/-- The first resource with the given logical name, if any. -/
def Template.findResource (t : Template) (i : String) : Option Resource :=
  t.resources.find? (fun r => r.logicalId == i)

/-- How many statements of a document carry the given sid. -/
def PolicyDoc.sidCount (p : PolicyDoc) (s : String) : Nat :=
  (p.statements.filter (fun st => st.sid == some s)).length

/-! ## Claim theorems -/

/-- C1: For every pair of input ARN lists, the key-policy synthesizer returns
one document with version "2012-10-17" and id "key-default-1"; the document
always contains exactly one statement with sid "Enable IAM User Permissions",
and that statement grants the root-account principal the kms wildcard action
over all resources; the "Allow use of the key" / "Allow attachment of
persistent resources" pair is present iff `key_use_arns` is non-empty; the
"Allow access for Key Administrators" statement is present iff
`key_admin_arns` is non-empty; and with both lists empty the document holds
the root statement alone. -/
theorem C1_kms_key_policy_document (use admin : List Val) :
    (kms_key_policy use admin).version = some "2012-10-17" ∧
    (kms_key_policy use admin).id = some "key-default-1" ∧
    (kms_key_policy use admin).statements.filter
        (fun st => st.sid == some "Enable IAM User Permissions")
      = [enable_iam_user_permissions_stmt] ∧
    enable_iam_user_permissions_stmt.principal = some (.aws root_arn) ∧
    enable_iam_user_permissions_stmt.action = [⟨"kms", "*"⟩] ∧
    enable_iam_user_permissions_stmt.resource = [Val.str "*"] ∧
    ((kms_key_policy use admin).sidCount "Allow use of the key" = 1 ↔
      use ≠ []) ∧
    ((kms_key_policy use admin).sidCount
        "Allow attachment of persistent resources" = 1 ↔ use ≠ []) ∧
    ((kms_key_policy use admin).sidCount
        "Allow access for Key Administrators" = 1 ↔ admin ≠ []) ∧
    (kms_key_policy [] []).statements = [enable_iam_user_permissions_stmt] := by
  unfold kms_key_policy PolicyDoc.sidCount
  rcases use with _ | ⟨u, us⟩ <;> rcases admin with _ | ⟨a, as⟩ <;>
    simp [enable_iam_user_permissions_stmt, allow_use_stmt,
      allow_attachment_stmt, allow_admin_stmt, List.filter]

/-- C2: With `EncryptS3Bucket = false`, composition produces no `kms.Key`
resource, no `kms.Alias`, no policy document with the key-policy id, and
registers none of the key-related outputs, whatever the remaining variables
hold. -/
theorem C2_no_encryption_no_key_artifacts (ctx : Context) (cfg : Config)
    (h : cfg.EncryptS3Bucket = false) :
    (create_template ctx cfg).2.resources.any (fun r => r.isKmsKey) = false ∧
    (create_template ctx cfg).2.resources.any (fun r => r.isKmsAlias) = false ∧
    (create_template ctx cfg).2.hasResource KMS_KEY = false ∧
    (create_template ctx cfg).2.hasResource KEY_ALIAS = false ∧
    (create_template ctx cfg).2.hasOutput "KmsKeyArn" = false ∧
    (create_template ctx cfg).2.hasOutput "KmsKeyId" = false ∧
    (create_template ctx cfg).2.hasOutput "KmsKeyAlias" = false ∧
    (∀ r ∈ (create_template ctx cfg).2.resources, ∀ p ∈ r.policyDocs,
      p.id ≠ some "key-default-1") := by
  unfold create_template create_kms_key create_policy create_bucket create_role
  simp only [h, Bool.not_false, if_pos]
  split <;>
    simp [Template.empty, Template.add_resource, Template.add_output,
      Template.hasResource, Template.hasOutput, Resource.isKmsKey,
      Resource.isKmsAlias, Resource.logicalId, Resource.policyDocs,
      generate_iam_policies, firehose_role_policy, firehose_write_policy,
      logs_policy, logs_write_policy, s3_write_policy, FIREHOSE_WRITE_POLICY,
      LOGS_POLICY, BUCKET, IAM_ROLE, KMS_KEY, KEY_ALIAS]

/-- C2 witness: the defaults with encryption switched off. -/
theorem C2_no_encryption_no_key_artifacts_witness :
    ((create_template ⟨"ns-stack"⟩
        { Config.defaults with EncryptS3Bucket := false }).2.resources.any
      (fun r => r.isKmsKey) = false) ∧
    ((create_template ⟨"ns-stack"⟩
        { Config.defaults with EncryptS3Bucket := false }).2.resources.any
      (fun r => r.isKmsAlias) = false) ∧
    ((create_template ⟨"ns-stack"⟩
        { Config.defaults with EncryptS3Bucket := false }).2.hasResource
      KMS_KEY = false) ∧
    ((create_template ⟨"ns-stack"⟩
        { Config.defaults with EncryptS3Bucket := false }).2.hasResource
      KEY_ALIAS = false) ∧
    ((create_template ⟨"ns-stack"⟩
        { Config.defaults with EncryptS3Bucket := false }).2.hasOutput
      "KmsKeyArn" = false) ∧
    ((create_template ⟨"ns-stack"⟩
        { Config.defaults with EncryptS3Bucket := false }).2.hasOutput
      "KmsKeyId" = false) ∧
    ((create_template ⟨"ns-stack"⟩
        { Config.defaults with EncryptS3Bucket := false }).2.hasOutput
      "KmsKeyAlias" = false) ∧
    (∀ r ∈ (create_template ⟨"ns-stack"⟩
        { Config.defaults with EncryptS3Bucket := false }).2.resources,
      ∀ p ∈ r.policyDocs, p.id ≠ some "key-default-1") :=
  C2_no_encryption_no_key_artifacts ⟨"ns-stack"⟩
    { Config.defaults with EncryptS3Bucket := false } rfl

/-- C3: With `EncryptS3Bucket = true`, the policy of the key resource is
synthesized from `KeyUseArns` with the role-ARN reference appended; that
reference is a member of the effective use list even when the configured
list is empty, and the resulting key policy always contains the use pair. -/
theorem C3_role_arn_in_key_use_list (ctx : Context) (cfg : Config)
    (h : cfg.EncryptS3Bucket = true) :
    (create_template ctx cfg).2.findResource KMS_KEY =
      some (.kmsKey KMS_KEY
        (Val.join "" [Val.str "S3 Bucket kms encryption key for stack ",
          Val.ref "AWS::StackName"])
        true cfg.EnableKeyRotation
        (kms_key_policy (cfg.KeyUseArns ++ [Val.getAtt IAM_ROLE "Arn"])
          cfg.KeyAdminArns)) ∧
    Val.getAtt IAM_ROLE "Arn" ∈ cfg.KeyUseArns ++ [Val.getAtt IAM_ROLE "Arn"] ∧
    (kms_key_policy (cfg.KeyUseArns ++ [Val.getAtt IAM_ROLE "Arn"])
        cfg.KeyAdminArns).sidCount "Allow use of the key" = 1 ∧
    (kms_key_policy (cfg.KeyUseArns ++ [Val.getAtt IAM_ROLE "Arn"])
        cfg.KeyAdminArns).sidCount
      "Allow attachment of persistent resources" = 1 := by
  refine ⟨?_, by simp, ?_, ?_⟩
  · unfold create_template create_kms_key create_policy create_bucket
      create_role
    simp only [h, Bool.not_true, if_neg, Bool.false_eq_true,
      not_false_eq_true]
    split <;>
      simp [Template.empty, Template.add_resource, Template.add_output,
        Template.findResource, Resource.logicalId, KMS_KEY]
  all_goals
    unfold kms_key_policy PolicyDoc.sidCount
    rcases hadm : cfg.KeyAdminArns with _ | ⟨a, as⟩ <;>
      simp [enable_iam_user_permissions_stmt, allow_use_stmt,
        allow_attachment_stmt, allow_admin_stmt, List.filter]

/-- C3 witness: the all-defaults configuration (empty `KeyUseArns`). -/
theorem C3_role_arn_in_key_use_list_witness :
    ((create_template ⟨"ns-stack"⟩ Config.defaults).2.findResource KMS_KEY =
      some (.kmsKey KMS_KEY
        (Val.join "" [Val.str "S3 Bucket kms encryption key for stack ",
          Val.ref "AWS::StackName"])
        true Config.defaults.EnableKeyRotation
        (kms_key_policy
          (Config.defaults.KeyUseArns ++ [Val.getAtt IAM_ROLE "Arn"])
          Config.defaults.KeyAdminArns))) ∧
    Val.getAtt IAM_ROLE "Arn" ∈
      Config.defaults.KeyUseArns ++ [Val.getAtt IAM_ROLE "Arn"] ∧
    (kms_key_policy (Config.defaults.KeyUseArns ++ [Val.getAtt IAM_ROLE "Arn"])
        Config.defaults.KeyAdminArns).sidCount "Allow use of the key" = 1 ∧
    (kms_key_policy (Config.defaults.KeyUseArns ++ [Val.getAtt IAM_ROLE "Arn"])
        Config.defaults.KeyAdminArns).sidCount
      "Allow attachment of persistent resources" = 1 :=
  C3_role_arn_in_key_use_list ⟨"ns-stack"⟩ Config.defaults rfl

/-- C4: The two standalone attachment policies exist iff at least one of
`RoleNames` / `GroupNames` / `UserNames` is non-empty; when they exist, both
carry every non-empty category as its supplied name list, and each empty
category as the no-value sentinel rather than an empty list. -/
theorem C4_attachment_policy_creation (ctx : Context) (cfg : Config) :
    ((create_template ctx cfg).2.hasResource FIREHOSE_WRITE_POLICY = true ∧
     (create_template ctx cfg).2.hasResource LOGS_POLICY = true ↔
      cfg.RoleNames ≠ [] ∨ cfg.GroupNames ≠ [] ∨ cfg.UserNames ≠ []) ∧
    (create_template ctx cfg).2.findResource FIREHOSE_WRITE_POLICY =
      (if cfg.RoleNames ≠ [] ∨ cfg.GroupNames ≠ [] ∨ cfg.UserNames ≠ [] then
        some (.iamPolicyType FIREHOSE_WRITE_POLICY (ctx.fqn ++ "-firehose")
          firehose_write_policy
          (if cfg.RoleNames = [] then .noValue else .names cfg.RoleNames)
          (if cfg.GroupNames = [] then .noValue else .names cfg.GroupNames)
          (if cfg.UserNames = [] then .noValue else .names cfg.UserNames))
      else none) ∧
    (create_template ctx cfg).2.findResource LOGS_POLICY =
      (if cfg.RoleNames ≠ [] ∨ cfg.GroupNames ≠ [] ∨ cfg.UserNames ≠ [] then
        some (.iamPolicyType LOGS_POLICY (ctx.fqn ++ "-logs")
          logs_policy
          (if cfg.RoleNames = [] then .noValue else .names cfg.RoleNames)
          (if cfg.GroupNames = [] then .noValue else .names cfg.GroupNames)
          (if cfg.UserNames = [] then .noValue else .names cfg.UserNames))
      else none) := by
  unfold create_template create_kms_key create_policy create_bucket create_role
  by_cases h1 : cfg.RoleNames = [] <;> by_cases h2 : cfg.GroupNames = [] <;>
    by_cases h3 : cfg.UserNames = [] <;>
    by_cases he : cfg.EncryptS3Bucket <;>
    simp [h1, h2, h3, he, Template.empty, Template.add_resource,
      Template.add_output, Template.hasResource, Template.findResource,
      Resource.logicalId, FIREHOSE_WRITE_POLICY, LOGS_POLICY, BUCKET,
      IAM_ROLE, KMS_KEY, KEY_ALIAS]

/-- C5 counterexample: with `RoleNames = ["consumer-role"]`, the log
attachment policy resource carries the `logs_policy` document, and no
statement of that document contains the log-event write action
`logs:PutLogEvents` — the log attachment policy does not grant log-event
write (that action lives only in the inline role policy). -/
theorem C5_log_attachment_no_put_log_events :
    (create_template ⟨"ns-stack"⟩
        { Config.defaults with RoleNames := ["consumer-role"] }).2.findResource
      LOGS_POLICY =
      some (.iamPolicyType LOGS_POLICY "ns-stack-logs" logs_policy
        (.names ["consumer-role"]) .noValue .noValue) ∧
    ∀ st ∈ logs_policy.statements,
      (⟨"logs", "PutLogEvents"⟩ : ActionName) ∉ st.action := by
  constructor
  · rfl
  · intro st hst
    simp only [logs_policy, List.mem_singleton] at hst
    subst hst
    decide

/-- C5 amended: when the attachment policies are created, the stream-write
attachment policy document grants the delivery-stream create, delete,
describe, put-record and put-record-batch actions on all resources, and the
log attachment policy document grants exactly the log-stream and log-group
creation actions (log-event write appears only in the inline role policy
`logs_write_policy`). -/
theorem C5_attachment_policy_documents (ctx : Context) (cfg : Config)
    (h : cfg.RoleNames ≠ [] ∨ cfg.GroupNames ≠ [] ∨ cfg.UserNames ≠ []) :
    (∃ r g u, (create_template ctx cfg).2.findResource FIREHOSE_WRITE_POLICY =
      some (.iamPolicyType FIREHOSE_WRITE_POLICY (ctx.fqn ++ "-firehose")
        firehose_write_policy r g u)) ∧
    (∃ r g u, (create_template ctx cfg).2.findResource LOGS_POLICY =
      some (.iamPolicyType LOGS_POLICY (ctx.fqn ++ "-logs")
        logs_policy r g u)) ∧
    firehose_write_policy.statements.map (fun st => st.action) =
      [[⟨"firehose", "CreateDeliveryStream"⟩,
        ⟨"firehose", "DeleteDeliveryStream"⟩,
        ⟨"firehose", "DescribeDeliveryStream"⟩,
        ⟨"firehose", "PutRecord"⟩,
        ⟨"firehose", "PutRecordBatch"⟩]] ∧
    firehose_write_policy.statements.map (fun st => st.resource) =
      [[Val.str "*"]] ∧
    logs_policy.statements.map (fun st => st.action) =
      [[⟨"logs", "CreateLogStream"⟩, ⟨"logs", "CreateLogGroup"⟩]] ∧
    logs_write_policy.statements.map (fun st => st.action) =
      [[⟨"logs", "PutLogEvents"⟩]] := by
  refine ⟨?_, ?_, rfl, rfl, rfl, rfl⟩ <;>
  · unfold create_template create_kms_key create_policy create_bucket
      create_role
    rcases h1 : cfg.RoleNames with _ | _ <;>
      rcases h2 : cfg.GroupNames with _ | _ <;>
      rcases h3 : cfg.UserNames with _ | _ <;>
      by_cases he : cfg.EncryptS3Bucket <;>
      simp_all [Template.empty, Template.add_resource, Template.add_output,
        Template.findResource, Resource.logicalId, FIREHOSE_WRITE_POLICY,
        LOGS_POLICY, KMS_KEY, KEY_ALIAS]

/-- C5 amended witness: `RoleNames = ["consumer-role"]`, everything else at
its default. -/
theorem C5_attachment_policy_documents_witness :
    (∃ r g u, (create_template ⟨"ns-stack"⟩
        { Config.defaults with
            RoleNames := ["consumer-role"] }).2.findResource
      FIREHOSE_WRITE_POLICY =
      some (.iamPolicyType FIREHOSE_WRITE_POLICY "ns-stack-firehose"
        firehose_write_policy r g u)) ∧
    (∃ r g u, (create_template ⟨"ns-stack"⟩
        { Config.defaults with
            RoleNames := ["consumer-role"] }).2.findResource LOGS_POLICY =
      some (.iamPolicyType LOGS_POLICY "ns-stack-logs" logs_policy r g u)) ∧
    firehose_write_policy.statements.map (fun st => st.action) =
      [[⟨"firehose", "CreateDeliveryStream"⟩,
        ⟨"firehose", "DeleteDeliveryStream"⟩,
        ⟨"firehose", "DescribeDeliveryStream"⟩,
        ⟨"firehose", "PutRecord"⟩,
        ⟨"firehose", "PutRecordBatch"⟩]] ∧
    firehose_write_policy.statements.map (fun st => st.resource) =
      [[Val.str "*"]] ∧
    logs_policy.statements.map (fun st => st.action) =
      [[⟨"logs", "CreateLogStream"⟩, ⟨"logs", "CreateLogGroup"⟩]] ∧
    logs_write_policy.statements.map (fun st => st.action) =
      [[⟨"logs", "PutLogEvents"⟩]] :=
  C5_attachment_policy_documents ⟨"ns-stack"⟩
    { Config.defaults with RoleNames := ["consumer-role"] }
    (Or.inl (by decide))

/-- C6: Two composition invocations over identical configuration snapshots
and identical auto-naming context yield structurally identical templates:
the same resource list (hence the same statement contents) and the same
output list, since every invocation starts from the empty template. -/
theorem C6_composition_deterministic (ctx ctx2 : Context) (cfg cfg2 : Config)
    (hctx : ctx = ctx2) (hcfg : cfg = cfg2) :
    (create_template ctx cfg).2.resources =
      (create_template ctx2 cfg2).2.resources ∧
    (create_template ctx cfg).2.outputs =
      (create_template ctx2 cfg2).2.outputs ∧
    (create_template ctx cfg).1 = (create_template ctx2 cfg2).1 := by
  subst hctx
  subst hcfg
  exact ⟨rfl, rfl, rfl⟩

/-- C6 witness: two runs over the default configuration. -/
theorem C6_composition_deterministic_witness :
    (create_template ⟨"ns-stack"⟩ Config.defaults).2.resources =
      (create_template ⟨"ns-stack"⟩ Config.defaults).2.resources ∧
    (create_template ⟨"ns-stack"⟩ Config.defaults).2.outputs =
      (create_template ⟨"ns-stack"⟩ Config.defaults).2.outputs ∧
    (create_template ⟨"ns-stack"⟩ Config.defaults).1 =
      (create_template ⟨"ns-stack"⟩ Config.defaults).1 :=
  C6_composition_deterministic ⟨"ns-stack"⟩ ⟨"ns-stack"⟩
    Config.defaults Config.defaults rfl rfl

/-- C7: For every bucket reference, the object-store write policy is a single
allow statement whose actions are exactly multipart-upload abort,
bucket-location read, object read, bucket listing, multipart-upload listing
and object write, and whose resources are exactly the bucket ARN and the
`bucket/*` ARN. -/
theorem C7_s3_write_policy_shape (bucket : Val) :
    (s3_write_policy bucket).statements.length = 1 ∧
    (s3_write_policy bucket).statements.map (fun st => st.effect) =
      [.Allow] ∧
    (s3_write_policy bucket).statements.map (fun st => st.action) =
      [[⟨"s3", "AbortMultipartUpload"⟩,
        ⟨"s3", "GetBucketLocation"⟩,
        ⟨"s3", "GetObject"⟩,
        ⟨"s3", "ListBucket"⟩,
        ⟨"s3", "ListBucketMultipartUploads"⟩,
        ⟨"s3", "PutObject"⟩]] ∧
    (s3_write_policy bucket).statements.map (fun st => st.resource) =
      [[s3_arn bucket, s3_arn (Val.join "/" [bucket, Val.str "*"])]] :=
  ⟨rfl, rfl, rfl, rfl⟩

/-- C8: For every configuration, the access role exists; its trust policy is
exactly one statement allowing `firehose.amazonaws.com` to assume the role
under the condition `sts:ExternalId` equals the account id; its inline
policies are exactly the object-store write policy scoped to the created
bucket and the log-write policy; and the `Role` / `RoleArn` outputs are
registered. -/
theorem C8_access_role (ctx : Context) (cfg : Config) :
    (create_template ctx cfg).2.findResource IAM_ROLE =
      some (.iamRole IAM_ROLE firehose_role_policy "/"
        [{ logicalId := S3_WRITE_POLICY,
           policyName := ctx.fqn ++ "-s3-write",
           policyDocument := s3_write_policy (Val.ref BUCKET) },
         { logicalId := LOGS_WRITE_POLICY,
           policyName := ctx.fqn ++ "-logs-write",
           policyDocument := logs_write_policy }]) ∧
    firehose_role_policy.statements =
      [{ effect := .Allow,
         principal := some (.service ["firehose.amazonaws.com"]),
         action := [⟨"sts", "AssumeRole"⟩],
         condition := some (.stringEquals "sts:ExternalId"
           (Val.ref "AWS::AccountId")) }] ∧
    (create_template ctx cfg).2.hasOutput "Role" = true ∧
    (create_template ctx cfg).2.hasOutput "RoleArn" = true := by
  refine ⟨?_, rfl, ?_, ?_⟩ <;>
  · unfold create_template create_kms_key create_policy create_bucket
      create_role
    rcases h1 : cfg.RoleNames with _ | _ <;>
      rcases h2 : cfg.GroupNames with _ | _ <;>
      rcases h3 : cfg.UserNames with _ | _ <;>
      by_cases he : cfg.EncryptS3Bucket <;>
      simp_all [Template.empty, Template.add_resource, Template.add_output,
        Template.findResource, Template.hasOutput, Resource.logicalId,
        generate_iam_policies, IAM_ROLE, KMS_KEY, KEY_ALIAS,
        FIREHOSE_WRITE_POLICY, LOGS_POLICY, BUCKET]

/-- C9: For every configuration, exactly one bucket resource exists; its
name is the configured string when non-empty and the no-value sentinel
otherwise, and the `Bucket` output is registered. -/
theorem C9_bucket_creation (ctx : Context) (cfg : Config) :
    (create_template ctx cfg).2.resources.filter (fun r => r.isBucket) =
      [.s3Bucket BUCKET
        (if cfg.BucketName = "" then Val.ref "AWS::NoValue"
         else Val.str cfg.BucketName)] ∧
    (create_template ctx cfg).2.hasOutput "Bucket" = true := by
  unfold create_template create_kms_key create_policy create_bucket create_role
  rcases h1 : cfg.RoleNames with _ | _ <;>
    rcases h2 : cfg.GroupNames with _ | _ <;>
    rcases h3 : cfg.UserNames with _ | _ <;>
    by_cases he : cfg.EncryptS3Bucket <;>
    by_cases hb : cfg.BucketName = "" <;>
    simp_all [Template.empty, Template.add_resource, Template.add_output,
      Template.hasOutput, Resource.isBucket]

/-- C10: With `EncryptS3Bucket = true`, composition mutates the variables
state: the post-composition `KeyUseArns` is the configured list with the
role-ARN reference appended (one element longer), and every other
configuration field is unchanged. -/
theorem C10_key_use_arns_mutation (ctx : Context) (cfg : Config)
    (h : cfg.EncryptS3Bucket = true) :
    (create_template ctx cfg).1.KeyUseArns =
      cfg.KeyUseArns ++ [Val.getAtt IAM_ROLE "Arn"] ∧
    (create_template ctx cfg).1.KeyUseArns.length =
      cfg.KeyUseArns.length + 1 ∧
    (create_template ctx cfg).1.RoleNames = cfg.RoleNames ∧
    (create_template ctx cfg).1.GroupNames = cfg.GroupNames ∧
    (create_template ctx cfg).1.UserNames = cfg.UserNames ∧
    (create_template ctx cfg).1.BucketName = cfg.BucketName ∧
    (create_template ctx cfg).1.EncryptS3Bucket = cfg.EncryptS3Bucket ∧
    (create_template ctx cfg).1.EnableKeyRotation = cfg.EnableKeyRotation ∧
    (create_template ctx cfg).1.KeyAdminArns = cfg.KeyAdminArns := by
  unfold create_template create_kms_key create_policy create_bucket create_role
  simp [h]

/-- C10 witness: the default configuration, whose `KeyUseArns` is empty. -/
theorem C10_key_use_arns_mutation_witness :
    (create_template ⟨"ns-stack"⟩ Config.defaults).1.KeyUseArns =
      Config.defaults.KeyUseArns ++ [Val.getAtt IAM_ROLE "Arn"] ∧
    (create_template ⟨"ns-stack"⟩ Config.defaults).1.KeyUseArns.length =
      Config.defaults.KeyUseArns.length + 1 ∧
    (create_template ⟨"ns-stack"⟩ Config.defaults).1.RoleNames =
      Config.defaults.RoleNames ∧
    (create_template ⟨"ns-stack"⟩ Config.defaults).1.GroupNames =
      Config.defaults.GroupNames ∧
    (create_template ⟨"ns-stack"⟩ Config.defaults).1.UserNames =
      Config.defaults.UserNames ∧
    (create_template ⟨"ns-stack"⟩ Config.defaults).1.BucketName =
      Config.defaults.BucketName ∧
    (create_template ⟨"ns-stack"⟩ Config.defaults).1.EncryptS3Bucket =
      Config.defaults.EncryptS3Bucket ∧
    (create_template ⟨"ns-stack"⟩ Config.defaults).1.EnableKeyRotation =
      Config.defaults.EnableKeyRotation ∧
    (create_template ⟨"ns-stack"⟩ Config.defaults).1.KeyAdminArns =
      Config.defaults.KeyAdminArns :=
  C10_key_use_arns_mutation ⟨"ns-stack"⟩ Config.defaults rfl

end Firehose